import Mathlib

/-!
A shallow embedding of the QSPy amateur-radio logbook library
(`src/qspylib`: `logbook.py`, `lotw.py`, `eqsl.py`, `qrz.py`) in Lean 4,
together with theorems settling the specification claims about it.

Modelling conventions:
* Python strings are `String`; `dict`s keyed by strings are association
  lists (`List (String × String)`), with first-match lookup.
* Python code that can raise is embedded as `Except PyErr _`.
* The class `QSO` in `logbook.py` defines no `__eq__`/`__hash__`, so
  Python compares and hashes `QSO` objects by object identity.  A `QSO`
  object is therefore embedded as its six attributes plus an object
  identity token `oid : Nat`; the Python `==` on `QSO` objects is
  equality of `oid`.
* The external collaborators (the `requests` HTTP client and the
  `adif_io` ADIF parser) are not part of this repository; operations
  that consume them are parameterised by the response(s)
  `(status, body)` they would deliver and by the parse function.
-/

deriving instance DecidableEq for Except

/-- Errors that the embedded Python code can raise. -/
inductive PyErr where
  /-- `KeyError` from a `dict[...]` subscript on a missing key. -/
  | keyError (k : String)
  /-- `ValueError`, e.g. from tuple unpacking of the wrong arity or a
  failed `str.index`. -/
  | valueError
  /-- `TypeError`, e.g. from `','.join(None)` or from calling a function
  with the wrong number of arguments. -/
  | typeError
  /-- A bare `raise Exception(msg)`. -/
  | exception (msg : String)
  /-- `qspylib.lotw.RetrievalFailure`. -/
  | retrievalFailure
  /-- `qspylib.qrz.QRZInvalidSession`, carrying its message. -/
  | invalidSession (msg : String)
  /-- `requests` `HTTPError` raised by `raise_for_status` on a non-ok
  response. -/
  | httpError
deriving DecidableEq

/-- Owner-callsign values observed in the code: either a plain Python
string, or (because of the trailing comma in `self.callsign = username,`
in `eqsl.py`) a one-element tuple containing a string. -/
inductive PyStr where
  | str (s : String)
  | tuple1 (s : String)
deriving DecidableEq

/-- A raw parsed ADIF record, as produced by the external `adif_io`
parser: a mapping from field name to string value. -/
abbrev Record := List (String × String)

/-- Python `d.get(k)` on a string-keyed dict: `some` value or `none`. -/
def recGet (r : Record) (k : String) : Option String :=
  List.lookup k r

/-- Python `d[k]`: the value, or a `KeyError` when the key is absent. -/
def getItem (r : Record) (k : String) : Except PyErr String :=
  match recGet r k with
  | some v => .ok v
  | none => .error (.keyError k)

/-- Python truthiness of an `Optional[str]`: `None` and `""` are falsy,
every other string is truthy. -/
def optTruthy : Option String → Bool
  | none => false
  | some s => !s.isEmpty

/-- Python `o == t` where `o` is an `Optional[str]` and `t` a string:
`None == t` is `False`, otherwise string equality. -/
def optEqStr : Option String → String → Bool
  | none, _ => false
  | some s, t => s == t

/-- First index (in characters) at which `sub` occurs in `l`, scanning
left to right; `none` when `sub` does not occur.  This is the search
underlying both Python's `sub in s` and `s.index(sub)`. -/
def firstIdx (sub : List Char) : List Char → Nat → Option Nat
  | [], i => if sub.isEmpty then some i else none
  | c :: rest, i =>
    if sub.isPrefixOf (c :: rest) then some i
    else firstIdx sub rest (i + 1)

/-- Python `sub in s` (substring containment). -/
def pyContains (s sub : String) : Bool :=
  (firstIdx sub.toList s.toList 0).isSome

/-- Python `s.index(sub)`: the first index, or a `ValueError`. -/
def pyIndex (s sub : String) : Except PyErr Nat :=
  match firstIdx sub.toList s.toList 0 with
  | some i => .ok i
  | none => .error .valueError

/-- Python slice `s[a:b]` with non-negative bounds. -/
def pySlice (s : String) (a b : Nat) : String :=
  String.mk ((s.toList.drop a).take (b - a))

/-- Python `s.split(sep)` for a non-empty separator, via explicit fuel
(each step consumes at least one character, so `length + 1` fuel always
suffices): splits on every occurrence of `sep`, keeping empty pieces,
and yields one more piece than there are separator occurrences. -/
def pySplitAux (sep : List Char) : Nat → List Char → List Char → List (List Char)
  | 0, l, acc => [acc.reverse ++ l]
  | _ + 1, [], acc => [acc.reverse]
  | fuel + 1, c :: rest, acc =>
    if sep.isPrefixOf (c :: rest) then
      acc.reverse :: pySplitAux sep fuel ((c :: rest).drop sep.length) []
    else
      pySplitAux sep fuel rest (c :: acc)

/-- Python `s.split(sep)` (non-empty `sep`). -/
def pySplit (s sep : String) : List String :=
  (pySplitAux sep.toList (s.toList.length + 1) s.toList []).map String.mk

/-- Python case-insensitive substring containment, used only to state
the spec's "matched case-insensitively" reading of the LoTW marker
check; the source itself performs a case-sensitive check. -/
def pyContainsCI (s sub : String) : Bool :=
  (firstIdx (sub.toList.map Char.toLower) (s.toList.map Char.toLower) 0).isSome

/-- Python `dict[k] = v` on an insertion-ordered string dict modelled as
an association list: overwrite in place if the key exists, else append. -/
def dictInsert (d : List (String × String)) (k v : String) :
    List (String × String) :=
  if d.any (fun p => p.1 == k) then
    d.map (fun p => if p.1 == k then (k, v) else p)
  else d ++ [(k, v)]

/-- Python `','.join(x)` for `x : Optional[list[str]]`: joining `None`
raises `TypeError`. -/
def pyJoinComma : Option (List String) → Except PyErr String
  | none => .error .typeError
  | some l => .ok (String.intercalate "," l)

/-- `logbook.QSO`: the six attributes set by `QSO.__init__`, plus the
object-identity token `oid` (the class defines no `__eq__`/`__hash__`,
so Python's `==` and set membership on these objects use identity). -/
structure QSO where
  oid : Nat
  their_call : String
  band : String
  mode : String
  qso_date : String
  time_on : String
  qsl_rcvd : String
deriving DecidableEq

/-- Python `==` on two `logbook.QSO` objects: with no `__eq__` defined
in the class, this is object identity. -/
def pyEqQSO (a b : QSO) : Bool :=
  a.oid == b.oid

/-- The spec's intended QSO identity: equality of exactly the five
identifying fields (callsign, band, mode, date, time), with the
confirmation flag `qsl_rcvd` excluded.  Stated from the spec's words,
for comparison against the source's behaviour. -/
def specFieldEq (a b : QSO) : Bool :=
  a.their_call == b.their_call && a.band == b.band && a.mode == b.mode
    && a.qso_date == b.qso_date && a.time_on == b.time_on

/-- Python `set.add` on a set of `QSO` objects (identity hashing):
no-op when an identical object is present, else the object is added. -/
def pySetAdd (log : List QSO) (q : QSO) : List QSO :=
  if log.any (fun x => pyEqQSO x q) then log else log ++ [q]

/-- Python `set.discard` on a set of `QSO` objects (identity hashing):
removes the identical object when present. -/
def pySetDiscard (log : List QSO) (q : QSO) : List QSO :=
  log.filter (fun x => !pyEqQSO x q)

/-- `logbook.Logbook`: owner callsign, raw parsed records `adi`, parsed
header, and the normalized set `log` of `QSO` objects. -/
structure Logbook where
  callsign : PyStr
  adi : List Record
  header : String
  log : List QSO
deriving DecidableEq

/-- The confirmation-flag derivation in `Logbook.__init__` (lines
66-68): `'Y' if qsl_rcvd == 'Y' or qrz_qsl_dte or eqsl_qsl_rcvd == 'Y'
else 'N'`. -/
def qsoConfirmed (contact : Record) : String :=
  if optEqStr (recGet contact "QSL_RCVD") "Y"
      || optTruthy (recGet contact "app_qrzlog_qsldate")
      || optEqStr (recGet contact "eqsl_qsl_rcvd") "Y" then "Y" else "N"

/-- The `QSO(...)` construction on line 70 of `logbook.py` for one
contact: subscripts `CALL`, `BAND`, `MODE`, `QSO_DATE`, `TIME_ON` in
Python's left-to-right argument order (each can raise `KeyError`), and
a fresh object identity `i`. -/
def mkQSOFromContact (i : Nat) (contact : Record) : Except PyErr QSO :=
  match getItem contact "CALL" with
  | .error e => .error e
  | .ok call =>
    match getItem contact "BAND" with
    | .error e => .error e
    | .ok band =>
      match getItem contact "MODE" with
      | .error e => .error e
      | .ok mode =>
        match getItem contact "QSO_DATE" with
        | .error e => .error e
        | .ok date =>
          match getItem contact "TIME_ON" with
          | .error e => .error e
          | .ok time => .ok ⟨i, call, band, mode, date, time, qsoConfirmed contact⟩

/-- The `for contact in self.adi` loop of `Logbook.__init__`: each raw
record yields a freshly constructed `QSO` object (identity `i`, then
`i+1`, ...) added to the set `log`. -/
def addContacts (i : Nat) (log : List QSO) : List Record → Except PyErr (List QSO)
  | [] => .ok log
  | contact :: rest =>
    match mkQSOFromContact i contact with
    | .error e => .error e
    | .ok q => addContacts (i + 1) (pySetAdd log q) rest

/-- `Logbook.__init__`, parameterised by the output of the external
`adif_io.read_from_string` (the raw records and the header). -/
def mkLogbook (callsign : PyStr) (records : List Record) (header : String) :
    Except PyErr Logbook :=
  match addContacts 0 [] records with
  | .error e => .error e
  | .ok log => .ok ⟨callsign, records, header, log⟩

/-- `Logbook.write_qso`: adds the contact to the `log` set only. -/
def write_qso (lb : Logbook) (contact : QSO) : Logbook :=
  { lb with log := pySetAdd lb.log contact }

/-- `Logbook.discard_qso`: discards the contact from the `log` set only. -/
def discard_qso (lb : Logbook) (contact : QSO) : Logbook :=
  { lb with log := pySetDiscard lb.log contact }

/-- `lotw.LOTWClient.fetch_logbook`, from the point where the HTTP
response `(status, text)` for `lotwreport.adi` is in hand (lines
158-165 of `lotw.py`): raise `RetrievalFailure` when `'<eoh>'` is not
in the body; on an ok status build `Logbook(self.username, text)`
(parsing delegated to the external parser `parse`); otherwise
`raise_for_status` raises an `HTTPError`. -/
def fetch_logbook (parse : String → List Record × String) (username : String)
    (status : Nat) (text : String) : Except PyErr Logbook :=
  if !pyContains text "<eoh>" then .error .retrievalFailure
  else if status == 200 then
    mkLogbook (.str username) (parse text).1 (parse text).2
  else .error .httpError

/-- `eqsl.verify_eqsl`, from the point where the HTTP response
`(status, text)` is in hand (lines 47-56 of `eqsl.py`). -/
def verify_eqsl (status : Nat) (text : String) : Except PyErr (Bool × String) :=
  if status == 200 then
    if pyContains text "Result - QSO on file" then .ok (true, text)
    else if !pyContains text "Parameter missing" then .ok (false, text)
    else .error (.exception text)
  else .error .httpError

/-- The `for pair in loc` loop of `eqsl.get_ag_list_dated`: each
interior line is split on `', '` and unpacked as `call, date`; a line
that does not split into exactly two pieces raises `ValueError`. -/
def agDatedLoop (dict : List (String × String)) :
    List String → Except PyErr (List (String × String))
  | [] => .ok dict
  | pair :: rest =>
    match pySplit pair ", " with
    | [call, date] => agDatedLoop (dictInsert dict call date) rest
    | _ => .error .valueError

/-- `eqsl.get_ag_list_dated`, from the point where the HTTP response
`(status, text)` is in hand (lines 127-136 of `eqsl.py`): split the
body on CRLF, take `result_list[1:-1]` as the interior lines and
`result_list[0]` as the header, and build the callsign-to-date dict. -/
def get_ag_list_dated (status : Nat) (text : String) :
    Except PyErr (List (String × String) × String) :=
  if status == 200 then
    let result_list := pySplit text "\r\n"
    let loc := (result_list.drop 1).dropLast
    let header := result_list.headD ""
    match agDatedLoop [] loc with
    | .ok dict_calls => .ok (dict_calls, header)
    | .error e => .error e
  else .error .httpError

/-- `eqsl.eQSLClient`: the state set by `__init__`.  Note the trailing
comma in `self.callsign = username,` (line 201 of `eqsl.py`), which
stores a one-element tuple rather than the string. -/
structure EQSLClient where
  callsign : PyStr
  timeout : Nat
  base_url : String
  session_params : List (String × String)
deriving DecidableEq

/-- `eqsl.eQSLClient.__init__` (without a QTH nickname). -/
def mkEQSLClient (username password : String) : EQSLClient :=
  { callsign := .tuple1 username
    timeout := 15
    base_url := "https://www.eqsl.cc/qslcard/"
    session_params := [("username", username), ("password", password)] }

/-- `eqsl.eQSLClient.fetch_inbox`, from the point where the first HTTP
response `(r1_status, r1_text)` is in hand; the second response
`(r2_status, r2_text)` is what the GET of the extracted download link
would deliver, and `parse` stands for the external ADIF parser (lines
296-313 of `eqsl.py`).  When the download of the ADIF file is not ok,
the code calls `r.raise_for_status()` on the *first* response, whose
status is ok, so nothing is raised and the method returns `None`
(modelled as `.ok none`). -/
def fetch_inbox (parse : String → List Record × String) (client : EQSLClient)
    (r1_status : Nat) (r1_text : String) (r2_status : Nat) (r2_text : String) :
    Except PyErr (Option Logbook) :=
  if r1_status == 200 then
    let adif_status : Int :=
      if pyContains r1_text "Your ADIF log file has been built" then
        match pyIndex r1_text "Your ADIF log file has been built" with
        | .ok i => (i : Int)
        | .error _ => -1
      else -1
    if adif_status < 0 then .error (.exception "Failed to generate ADIF.")
    else
      match pyIndex r1_text "<LI><A HREF=\"..", pyIndex r1_text "\">.ADI file</A>" with
      | .ok i1, .ok i2 =>
        let adif_link := client.base_url ++ pySlice r1_text (i1 + 15) i2
        if r2_status == 200 then
          match mkLogbook client.callsign (parse r2_text).1 (parse r2_text).2 with
          | .ok lb => .ok (some lb)
          | .error e => .error e
        else .ok none
      | .error e, _ => .error e
      | _, .error e => .error e
  else .error .httpError

/-- `eqsl.eQSLClient.fetch_outbox` (lines 323-340 of `eqsl.py`): the
same extraction as `fetch_inbox`, against the `DownloadADIF.cfm`
response. -/
def fetch_outbox (parse : String → List Record × String) (client : EQSLClient)
    (r1_status : Nat) (r1_text : String) (r2_status : Nat) (r2_text : String) :
    Except PyErr (Option Logbook) :=
  if r1_status == 200 then
    let adif_status : Int :=
      if pyContains r1_text "Your ADIF log file has been built" then
        match pyIndex r1_text "Your ADIF log file has been built" with
        | .ok i => (i : Int)
        | .error _ => -1
      else -1
    if adif_status < 0 then .error (.exception "Failed to generate ADIF.")
    else
      match pyIndex r1_text "<LI><A HREF=\"..", pyIndex r1_text "\">.ADI file</A>" with
      | .ok i1, .ok i2 =>
        let adif_link := client.base_url ++ pySlice r1_text (i1 + 15) i2
        if r2_status == 200 then
          match mkLogbook client.callsign (parse r2_text).1 (parse r2_text).2 with
          | .ok lb => .ok (some lb)
          | .error e => .error e
        else .ok none
      | .error e, _ => .error e
      | _, .error e => .error e
  else .error .httpError

/-- `qrz.MAX_NUM_RETRIES`. -/
def MAX_NUM_RETRIES : Nat := 1

/-- A parsed XML response as the code consumes it: a string-keyed
mapping queried with `.get` / `[...]`. -/
abbrev XmlDict := List (String × String)

/-- The `QRZInvalidSession` raised at the end of the lookup helpers:
`QRZInvalidSession(**{'message': parsed_response['ERROR']} if
parsed_response.get('ERROR') else {})` — the server-supplied `ERROR`
detail when truthy, else the class's default message. -/
def invalidSessionFromResp (resp : XmlDict) : PyErr :=
  if optTruthy (recGet resp "ERROR") then
    .invalidSession ((recGet resp "ERROR").getD "")
  else
    .invalidSession "Got no session key back. This session is invalid."

/-- `qrz.QRZXMLClient.__lookup_callsign` (lines 225-251 of `qrz.py`),
from the point where the lookup response has been parsed into `resp`.
`initResult` is the outcome the session re-establishment
(`self.__initiate_session()`) would have; it is consulted only on the
retry path.  On that path the source then executes
`self.__lookup_callsign(self, callsign, num_retries + 1)`: the bound
method receives four positional arguments for its three parameters, so
Python raises `TypeError` at the call site and no retried lookup is
ever performed. -/
def lookup_callsign_aux (resp : XmlDict) (initResult : Except PyErr Unit)
    (num_retries : Nat) : Except PyErr XmlDict :=
  if !optTruthy (recGet resp "Key") then
    if num_retries < MAX_NUM_RETRIES then
      match initResult with
      | .error e => .error e
      | .ok _ => .error .typeError
    else .error (invalidSessionFromResp resp)
  else .ok resp

/-- `qrz.QRZXMLClient.lookup_callsign`: enters the helper with
`num_retries = 0`. -/
def lookup_callsign (resp : XmlDict) (initResult : Except PyErr Unit) :
    Except PyErr XmlDict :=
  lookup_callsign_aux resp initResult 0

/-- `qrz.QRZXMLClient.__lookup_dxcc` (lines 267-293 of `qrz.py`): the
same logic as `__lookup_callsign`, including the same
`self.__lookup_dxcc(self, dxcc, num_retries + 1)` call with a
duplicated `self`, which raises `TypeError` at the call site. -/
def lookup_dxcc_aux (resp : XmlDict) (initResult : Except PyErr Unit)
    (num_retries : Nat) : Except PyErr XmlDict :=
  if !optTruthy (recGet resp "Key") then
    if num_retries < MAX_NUM_RETRIES then
      match initResult with
      | .error e => .error e
      | .ok _ => .error .typeError
    else .error (invalidSessionFromResp resp)
  else .ok resp

/-- `qrz.QRZXMLClient.lookup_dxcc`: enters the helper with
`num_retries = 0`. -/
def lookup_dxcc (resp : XmlDict) (initResult : Except PyErr Unit) :
    Except PyErr XmlDict :=
  lookup_dxcc_aux resp initResult 0

/-- The request data (`KEY`, `ACTION`, `LOGIDS`) that
`qrz.QRZLogbookClient.check_status` would POST. -/
structure StatusRequest where
  key : String
  action : String
  logids : String
deriving DecidableEq

/-- `qrz.QRZLogbookClient.check_status` (lines 138-158 of `qrz.py`), up
to the construction of the request data: the `data` dict literal
evaluates `','.join(list_logids)` before `requests.post` runs, so with
`list_logids = None` the `TypeError` from joining `None` is raised
before any HTTP request is issued.  On success the model returns the
request data that would be POSTed. -/
def check_status (key : String) (list_logids : Option (List String)) :
    Except PyErr StatusRequest :=
  match pyJoinComma list_logids with
  | .error e => .error e
  | .ok joined => .ok ⟨key, "STATUS", joined⟩

/-- A raw record with the five identifying fields of the repository's
own test data (`test_pytest.py`), used as a concrete input. -/
def sampleRecord : Record :=
  [("CALL", "W1AW"), ("BAND", "20m"), ("MODE", "SSB"),
   ("QSO_DATE", "20220101"), ("TIME_ON", "0000")]

/-- The `Logbook` value that construction from two copies of
`sampleRecord` produces: both records survive into the normalized set,
as objects `0` and `1`. -/
def sampleLogbook2 : Logbook :=
  ⟨.str "TE5T", [sampleRecord, sampleRecord], "",
   [⟨0, "W1AW", "20m", "SSB", "20220101", "0000", "N"⟩,
    ⟨1, "W1AW", "20m", "SSB", "20220101", "0000", "N"⟩]⟩

/-- The empty logbook used as a concrete input. -/
def emptyLogbookA : Logbook := ⟨.str "A", [], "", []⟩

/-- A stand-in for the external `adif_io` parser on a document with no
records: used only to instantiate parse parameters at concrete inputs. -/
def emptyParse : String → List Record × String := fun _ => ([], "")

/-- A concrete eQSL inbox/outbox trigger page containing the success
marker and the two link anchors. -/
def inboxPage : String :=
  "Your ADIF log file has been built <LI><A HREF=\"../qslcard/x.adi\">.ADI file</A>"

/-- The `Logbook` an eQSL fetch by user `W1AW` produces on an empty
ADIF download: owner callsign is the one-element tuple. -/
def lbT : Logbook := ⟨.tuple1 "W1AW", [], "", []⟩

/-- A freshly constructed `QSO` object (identity `0`, the test data's
five fields), used as a concrete input. -/
def qFresh : QSO := ⟨0, "W1AW", "20m", "SSB", "20220101", "0000", "N"⟩

theorem mkQSOFromContact_oid (i : Nat) (c : Record) (q : QSO)
    (h : mkQSOFromContact i c = .ok q) : q.oid = i := by
  unfold mkQSOFromContact at h
  repeat' split at h
  all_goals first
  | (cases h; rfl)
  | simp_all

theorem getItem_error (r : Record) (k : String) (e : PyErr)
    (h : getItem r k = .error e) : e = PyErr.keyError k := by
  unfold getItem at h
  split at h
  all_goals simp_all

theorem mkQSOFromContact_error (i : Nat) (c : Record) (e : PyErr)
    (h : mkQSOFromContact i c = .error e) : ∃ k, e = PyErr.keyError k := by
  unfold mkQSOFromContact at h
  repeat' split at h
  all_goals simp_all
  all_goals first
  | exact ⟨"CALL", getItem_error c "CALL" e (by assumption)⟩
  | exact ⟨"BAND", getItem_error c "BAND" e (by assumption)⟩
  | exact ⟨"MODE", getItem_error c "MODE" e (by assumption)⟩
  | exact ⟨"QSO_DATE", getItem_error c "QSO_DATE" e (by assumption)⟩
  | exact ⟨"TIME_ON", getItem_error c "TIME_ON" e (by assumption)⟩

theorem pySetAdd_fresh (log : List QSO) (q : QSO)
    (h : ∀ x ∈ log, x.oid ≠ q.oid) : pySetAdd log q = log ++ [q] := by
  unfold pySetAdd
  rw [if_neg]
  simp only [List.any_eq_true, pyEqQSO, not_exists, not_and]
  intro x hx
  simp only [beq_eq_false_iff_ne, ne_eq, Bool.not_eq_true, beq_eq_false_iff_ne]
  exact h x hx

theorem addContacts_length (l : List Record) : ∀ (i : Nat) (log log' : List QSO),
    (∀ x ∈ log, x.oid < i) → addContacts i log l = .ok log' →
    log'.length = log.length + l.length ∧ ∀ x ∈ log', x.oid < i + l.length := by
  induction l with
  | nil =>
    intro i log log' hb h
    simp only [addContacts] at h
    cases h
    exact ⟨by simp, by simpa using hb⟩
  | cons c rest ih =>
    intro i log log' hb h
    simp only [addContacts] at h
    cases hq : mkQSOFromContact i c with
    | error e =>
      rw [hq] at h
      exact absurd h (by simp)
    | ok q =>
      have h' : addContacts (i + 1) (pySetAdd log q) rest = .ok log' := by
        rw [hq] at h
        exact h
      have hoid := mkQSOFromContact_oid i c q hq
      have hfresh : ∀ x ∈ log, x.oid ≠ q.oid := by
        intro x hx
        rw [hoid]
        exact Nat.ne_of_lt (hb x hx)
      rw [pySetAdd_fresh log q hfresh] at h'
      have hb' : ∀ x ∈ log ++ [q], x.oid < i + 1 := by
        intro x hx
        rcases List.mem_append.mp hx with hx' | hx'
        · exact Nat.lt_succ_of_lt (hb x hx')
        · simp only [List.mem_singleton] at hx'
          subst hx'
          omega
      obtain ⟨hlen, hbd⟩ := ih (i + 1) (log ++ [q]) log' hb' h'
      refine ⟨?_, ?_⟩
      · simp only [List.length_append, List.length_singleton] at hlen
        simp only [List.length_cons]
        omega
      · intro x hx
        have := hbd x hx
        simp only [List.length_cons]
        omega

theorem mkLogbook_log_length (c : PyStr) (records : List Record) (header : String)
    (lb : Logbook) (h : mkLogbook c records header = .ok lb) :
    lb.log.length = lb.adi.length := by
  unfold mkLogbook at h
  cases hq : addContacts 0 [] records with
  | error e =>
    rw [hq] at h
    exact absurd h (by simp)
  | ok log =>
    rw [hq] at h
    cases h
    obtain ⟨hlen, -⟩ := addContacts_length records 0 [] log (by simp) hq
    simpa using hlen

theorem mkLogbook_callsign (c : PyStr) (records : List Record) (header : String)
    (lb : Logbook) (h : mkLogbook c records header = .ok lb) :
    lb.callsign = c := by
  unfold mkLogbook at h
  cases hq : addContacts 0 [] records with
  | error e =>
    rw [hq] at h
    exact absurd h (by simp)
  | ok log =>
    rw [hq] at h
    cases h
    rfl

theorem addContacts_error (l : List Record) : ∀ (i : Nat) (log : List QSO) (e : PyErr),
    addContacts i log l = .error e → ∃ k, e = PyErr.keyError k := by
  induction l with
  | nil =>
    intro i log e h
    simp [addContacts] at h
  | cons c rest ih =>
    intro i log e h
    simp only [addContacts] at h
    cases hq : mkQSOFromContact i c with
    | error e' =>
      have he : e' = e := by
        rw [hq] at h
        simpa using h
      subst he
      exact mkQSOFromContact_error i c e' hq
    | ok q =>
      have h' : addContacts (i + 1) (pySetAdd log q) rest = .error e := by
        rw [hq] at h
        exact h
      exact ih (i + 1) (pySetAdd log q) e h'

theorem mkLogbook_error (c : PyStr) (records : List Record) (header : String)
    (e : PyErr) (h : mkLogbook c records header = .error e) :
    ∃ k, e = PyErr.keyError k := by
  unfold mkLogbook at h
  cases hq : addContacts 0 [] records with
  | error e' =>
    have he : e' = e := by
      rw [hq] at h
      simpa using h
    subst he
    exact addContacts_error records 0 [] e' hq
  | ok log =>
    rw [hq] at h
    exact absurd h (by simp)

theorem fetch_inbox_ok (parse : String → List Record × String) (client : EQSLClient)
    (r1s : Nat) (r1t : String) (r2s : Nat) (r2t : String) (lb : Logbook)
    (h : fetch_inbox parse client r1s r1t r2s r2t = .ok (some lb)) :
    lb.callsign = client.callsign := by
  unfold fetch_inbox at h
  repeat' split at h
  all_goals try rw [if_neg (by omega)] at h
  all_goals simp_all
  exact mkLogbook_callsign _ _ _ _ (by assumption)

theorem fetch_outbox_ok (parse : String → List Record × String) (client : EQSLClient)
    (r1s : Nat) (r1t : String) (r2s : Nat) (r2t : String) (lb : Logbook)
    (h : fetch_outbox parse client r1s r1t r2s r2t = .ok (some lb)) :
    lb.callsign = client.callsign := by
  unfold fetch_outbox at h
  repeat' split at h
  all_goals try rw [if_neg (by omega)] at h
  all_goals simp_all
  exact mkLogbook_callsign _ _ _ _ (by assumption)

/-- Claim C1 (code bug): the claim states that QSO equality is defined
on exactly the five identifying fields, so that two QSOs built from
records differing only in the confirmation flag compare equal.  The
source class defines no __eq__, so Python compares QSO objects by
identity: two separately constructed QSOs with identical fields (the
repository's own test input, test_equality_of_qso) compare unequal,
while the five-field equality the spec and test demand holds of them. -/
theorem c1_equality_is_object_identity :
    pyEqQSO ⟨0, "W1AW", "20m", "SSB", "20220101", "0000", "N"⟩
        ⟨1, "W1AW", "20m", "SSB", "20220101", "0000", "N"⟩ = false ∧
    specFieldEq ⟨0, "W1AW", "20m", "SSB", "20220101", "0000", "N"⟩
        ⟨1, "W1AW", "20m", "SSB", "20220101", "0000", "N"⟩ = true ∧
    pyEqQSO ⟨0, "W1AW", "20m", "SSB", "20220101", "0000", "N"⟩
        ⟨0, "W1AW", "20m", "SSB", "20220101", "0000", "N"⟩ = true := by decide

/-- Claim C2 counterexample: constructing a Logbook from two records
with the same five identifying fields yields len(log) = 2 = len(adi),
not strictly less (duplicates do not collapse, because set membership
uses object identity); moreover a subsequent write_qso of a fresh QSO
makes len(log) exceed len(adi), so the claimed lifetime invariant
len(log) <= len(adi) also fails. -/
theorem c2_counterexample :
    mkLogbook (.str "TE5T") [sampleRecord, sampleRecord] "" = .ok sampleLogbook2 ∧
    ¬ sampleLogbook2.log.length < sampleLogbook2.adi.length ∧
    (write_qso sampleLogbook2 ⟨2, "K1AB", "40m", "CW", "20230101", "0100", "N"⟩).adi.length <
      (write_qso sampleLogbook2 ⟨2, "K1AB", "40m", "CW", "20230101", "0100", "N"⟩).log.length := by
  decide

/-- Claim C2 as amended: after every successful construction len(log)
equals len(adi) (each raw record contributes a freshly constructed QSO
object and duplicates never collapse); write_qso and discard_qso never
change adi; and write_qso of a freshly constructed QSO (one identical
to no object already in the set) grows len(log) by one, so the
normalized collection can exceed the raw record count after writes. -/
theorem c2_amended (c : PyStr) (records : List Record) (header : String)
    (lb : Logbook) (q : QSO) (h : mkLogbook c records header = .ok lb) :
    lb.log.length = lb.adi.length ∧
    (write_qso lb q).adi = lb.adi ∧
    (discard_qso lb q).adi = lb.adi ∧
    ((∀ x ∈ lb.log, x.oid ≠ q.oid) →
      (write_qso lb q).log.length = lb.log.length + 1) := by
  refine ⟨mkLogbook_log_length c records header lb h, rfl, rfl, ?_⟩
  intro hfresh
  simp [write_qso, pySetAdd_fresh lb.log q hfresh]

/-- Witness for c2_amended at a concrete input: the empty logbook and
a fresh QSO object. -/
theorem c2_amended_witness :
    emptyLogbookA.log.length = emptyLogbookA.adi.length ∧
    (write_qso emptyLogbookA qFresh).adi = emptyLogbookA.adi ∧
    (discard_qso emptyLogbookA qFresh).adi = emptyLogbookA.adi ∧
    ((∀ x ∈ emptyLogbookA.log, x.oid ≠ qFresh.oid) →
      (write_qso emptyLogbookA qFresh).log.length = emptyLogbookA.log.length + 1) :=
  c2_amended (.str "A") [] "" emptyLogbookA qFresh (by decide)

/-- Claim C3 (code bug): the claim states that write_qso of q followed
by discard_qso of any q' with the same five identifying fields restores
len(log).  Because set discard compares by object identity, discarding
a separately constructed, field-identical q' removes nothing: starting
from an empty logbook, after the write-then-discard pair len(log) is 1,
not 0, while adi is indeed never touched. -/
theorem c3_discard_does_not_restore :
    (discard_qso (write_qso ⟨.str "TE5T", [], "", []⟩
        ⟨0, "W1AW", "20m", "SSB", "20220101", "0000", "N"⟩)
        ⟨1, "W1AW", "20m", "SSB", "20220101", "0000", "N"⟩).log.length = 1 ∧
    specFieldEq ⟨0, "W1AW", "20m", "SSB", "20220101", "0000", "N"⟩
        ⟨1, "W1AW", "20m", "SSB", "20220101", "0000", "N"⟩ = true ∧
    (discard_qso (write_qso ⟨.str "TE5T", [], "", []⟩
        ⟨0, "W1AW", "20m", "SSB", "20220101", "0000", "N"⟩)
        ⟨1, "W1AW", "20m", "SSB", "20220101", "0000", "N"⟩).adi = [] := by decide

/-- Claim C4 (code bug): the claim states that a lookup response
missing the top-level Key triggers exactly one re-authentication and
one retried lookup, with QRZInvalidSession after a second failure.  In
the source the retry call passes self twice (four positional arguments
for a three-parameter method), so on the first missing-Key response —
even after a successful session re-establishment, and even when the
response carries an ERROR detail — the call raises TypeError: no
retried lookup is performed and QRZInvalidSession is never reached. -/
theorem c4_retry_raises_typeerror :
    lookup_callsign [] (.ok ()) = .error .typeError ∧
    lookup_callsign [("ERROR", "Session Timeout")] (.ok ()) = .error .typeError ∧
    lookup_dxcc [] (.ok ()) = .error .typeError := by decide

/-- Claim C5 counterexample: the body "<EOH>test" contains the
end-of-header marker case-insensitively, yet fetch_logbook raises
RetrievalFailure, because the source checks for the exact lowercase
substring "<eoh>". -/
theorem c5_counterexample :
    pyContainsCI "<EOH>test" "<eoh>" = true ∧
    fetch_logbook emptyParse "W1AW" 200 "<EOH>test" = .error .retrievalFailure := by decide

/-- Claim C5 as amended: fetch_logbook raises RetrievalFailure exactly
when the body lacks the exact (case-sensitive) substring "<eoh>"; any
Logbook it returns has the client's username as owner callsign; and
when the marker is present, the status is ok and the body parses as a
valid ADIF document, the resulting Logbook is returned. -/
theorem c5_amended (parse : String → List Record × String) (username : String)
    (status : Nat) (text : String) :
    (fetch_logbook parse username status text = .error .retrievalFailure ↔
      pyContains text "<eoh>" = false) ∧
    (∀ lb, fetch_logbook parse username status text = .ok lb →
      lb.callsign = .str username) ∧
    (pyContains text "<eoh>" = true → status = 200 →
      ∀ lb, mkLogbook (.str username) (parse text).1 (parse text).2 = .ok lb →
        fetch_logbook parse username status text = .ok lb) := by
  by_cases hc : pyContains text "<eoh>" = true
  · by_cases hs : status = 200
    · subst hs
      refine ⟨?_, ?_, ?_⟩
      · simp only [fetch_logbook, hc, Bool.not_true, Bool.false_eq_true, if_false,
          beq_self_eq_true, if_true, if_pos]
        constructor
        · intro h
          obtain ⟨k, hk⟩ := mkLogbook_error _ _ _ _ h
          simp at hk
        · intro h
          simp [hc] at h
      · intro lb h
        simp only [fetch_logbook, hc, Bool.not_true, Bool.false_eq_true, if_false,
          beq_self_eq_true, if_true, if_pos] at h
        exact mkLogbook_callsign _ _ _ _ h
      · intro _ _ lb hlb
        simpa only [fetch_logbook, hc, Bool.not_true, Bool.false_eq_true, if_false,
          beq_self_eq_true, if_true, if_pos] using hlb
    · refine ⟨?_, ?_, ?_⟩
      · simp [fetch_logbook, hc, hs]
      · intro lb h
        simp [fetch_logbook, hc, hs] at h
      · intro _ h
        exact absurd h hs
  · have hc' : pyContains text "<eoh>" = false := by simpa using hc
    refine ⟨?_, ?_, ?_⟩
    · simp [fetch_logbook, hc']
    · intro lb h
      simp [fetch_logbook, hc'] at h
    · intro h
      exact absurd h hc

/-- Witness for c5_amended at a concrete input: an ok response whose
body carries the lowercase marker and parses to an empty record list. -/
theorem c5_amended_witness :
    fetch_logbook emptyParse "W1AW" 200 "x<eoh>y" = .ok ⟨.str "W1AW", [], "", []⟩ ∧
    (⟨.str "W1AW", [], "", []⟩ : Logbook).callsign = .str "W1AW" := by
  have h := c5_amended emptyParse "W1AW" 200 "x<eoh>y"
  have hfetch : fetch_logbook emptyParse "W1AW" 200 "x<eoh>y" =
      .ok ⟨.str "W1AW", [], "", []⟩ :=
    h.2.2 (by decide) rfl ⟨.str "W1AW", [], "", []⟩ (by decide)
  exact ⟨hfetch, h.2.1 ⟨.str "W1AW", [], "", []⟩ hfetch⟩

/-- Claim C6 counterexample: a successful-status body containing both
"Result - QSO on file" and "Parameter missing" is returned as
(True, body), although the claim demands a hard failure for any body
containing "Parameter missing"; the source checks the success marker
first. -/
theorem c6_counterexample :
    verify_eqsl 200 "Result - QSO on file Parameter missing"
      = .ok (true, "Result - QSO on file Parameter missing") ∧
    pyContains "Result - QSO on file Parameter missing" "Parameter missing" = true := by
  decide

/-- Claim C6 as amended: the three cases are evaluated in the source's
order, so they apply to a successful-status body as follows: a body
containing "Result - QSO on file" yields (True, body); a body without
that marker and containing "Parameter missing" raises an Exception
carrying the body; any other body — in particular one containing
"Error - Result: QSO not on file" and neither other marker — yields
(False, body). -/
theorem c6_amended (text : String) :
    (pyContains text "Result - QSO on file" = true →
      verify_eqsl 200 text = .ok (true, text)) ∧
    (pyContains text "Result - QSO on file" = false →
      pyContains text "Parameter missing" = true →
      verify_eqsl 200 text = .error (.exception text)) ∧
    (pyContains text "Result - QSO on file" = false →
      pyContains text "Parameter missing" = false →
      verify_eqsl 200 text = .ok (false, text)) := by
  refine ⟨?_, ?_, ?_⟩
  all_goals intro h1
  · simp [verify_eqsl, h1]
  all_goals intro h2
  all_goals simp [verify_eqsl, h1, h2]

/-- Witness for c6_amended at the spec's "QSO not on file" body. -/
theorem c6_amended_witness :
    verify_eqsl 200 "Error - Result: QSO not on file"
      = .ok (false, "Error - Result: QSO not on file") :=
  (c6_amended "Error - Result: QSO not on file").2.2 (by decide) (by decide)

/-- Claim C7 counterexample: on the claim's body
"header\r\nW1AW, 2024-01-01\r\n\r\n" the CRLF split yields four pieces
(the last two empty); slicing [1:-1] keeps one interior empty line,
whose unpacking as "CALLSIGN, DATE" raises ValueError instead of
returning the claimed mapping. -/
theorem c7_counterexample :
    get_ag_list_dated 200 "header\r\nW1AW, 2024-01-01\r\n\r\n"
      = .error .valueError := by decide

/-- Claim C7 as amended: the parser strips the first (header) line and
the single empty piece produced by the final CRLF, so on the body
"header\r\nW1AW, 2024-01-01\r\n" (one trailing CRLF, no extra blank
line) it returns the mapping W1AW -> 2024-01-01 together with the
header "header". -/
theorem c7_amended :
    get_ag_list_dated 200 "header\r\nW1AW, 2024-01-01\r\n"
      = .ok ([("W1AW", "2024-01-01")], "header") := by decide

/-- Claim C8 (confirmed): eQSLClient.__init__ stores the one-element
tuple (username,) as the owner callsign — a value distinct from the
plain username string — and every Logbook returned by fetch_inbox or
fetch_outbox carries that tuple as its owner-callsign field. -/
theorem c8_eqsl_owner_is_tuple (username password : String)
    (parse : String → List Record × String) (r1s r2s : Nat) (r1t r2t : String)
    (lb : Logbook) :
    (mkEQSLClient username password).callsign = PyStr.tuple1 username ∧
    PyStr.tuple1 username ≠ PyStr.str username ∧
    (fetch_inbox parse (mkEQSLClient username password) r1s r1t r2s r2t
        = .ok (some lb) → lb.callsign = PyStr.tuple1 username) ∧
    (fetch_outbox parse (mkEQSLClient username password) r1s r1t r2s r2t
        = .ok (some lb) → lb.callsign = PyStr.tuple1 username) := by
  refine ⟨rfl, by simp, ?_, ?_⟩
  · intro h
    simpa [mkEQSLClient] using fetch_inbox_ok parse _ r1s r1t r2s r2t lb h
  · intro h
    simpa [mkEQSLClient] using fetch_outbox_ok parse _ r1s r1t r2s r2t lb h

/-- Witness for c8_eqsl_owner_is_tuple at a concrete successful inbox
fetch. -/
theorem c8_witness :
    fetch_inbox emptyParse (mkEQSLClient "W1AW" "pw") 200 inboxPage 200 ""
      = .ok (some lbT) ∧
    lbT.callsign = PyStr.tuple1 "W1AW" ∧
    PyStr.tuple1 "W1AW" ≠ PyStr.str "W1AW" := by
  have hfetch : fetch_inbox emptyParse (mkEQSLClient "W1AW" "pw") 200 inboxPage 200 ""
      = .ok (some lbT) := by decide
  have h := c8_eqsl_owner_is_tuple "W1AW" "pw" emptyParse 200 200 inboxPage "" lbT
  exact ⟨hfetch, h.2.2.1 hfetch, h.2.1⟩

/-- Claim C9 (confirmed): check_status with list_logids omitted (None)
raises TypeError from ','.join(None) while building the request data,
before any HTTP request is issued, for every API key. -/
theorem c9_check_status_default_typeerror (key : String) :
    check_status key none = .error .typeError := rfl

/-- Claim C10 (confirmed): immediately after every successful Logbook
construction the normalized set contains exactly one element per raw
record — len(log) = len(adi) — even when the input contains
structurally identical records, because each raw record contributes one
freshly constructed QSO object to the set. -/
theorem c10_log_matches_adi (c : PyStr) (records : List Record) (header : String)
    (lb : Logbook) (h : mkLogbook c records header = .ok lb) :
    lb.log.length = lb.adi.length :=
  mkLogbook_log_length c records header lb h

/-- Witness for c10_log_matches_adi at a concrete input with two
structurally identical records. -/
theorem c10_witness :
    mkLogbook (.str "TE5T") [sampleRecord, sampleRecord] "" = .ok sampleLogbook2 ∧
    sampleLogbook2.log.length = sampleLogbook2.adi.length :=
  ⟨by decide,
   c10_log_matches_adi (.str "TE5T") [sampleRecord, sampleRecord] ""
     sampleLogbook2 (by decide)⟩
